import Mathlib

set_option autoImplicit false

/-!
Shallow embedding of the signup wizard's completion flow and its voicemail
capture/upload subsystem.

The orchestrator (the page-level handleComplete function) creates the user
identity, inserts the committee record, then runs a best-effort voicemail
stage (bucket provisioning, upload, public-URL resolution, voicemail-record
insertion) before resetting the wizard state and signalling success.  The
voicemail step component keeps at most one of a recorded blob and a selected
file and, in its own variant of the flow, uploads before completing.

Backends (identity provider, relational store, object store) are modelled as
records of functions returning either a value or an error message; each run
also produces a trace of backend calls so that gating and ordering claims can
be stated.
-/

/-- A backend-issued user identity. -/
structure User where
  id : String
deriving DecidableEq

/-- Result shape of the identity provider call: a user or an error message. -/
structure SignUpResult where
  user : Option User
  error : Option String
deriving DecidableEq

/-- A storage container as returned by the listing call. -/
structure Bucket where
  name : String
deriving DecidableEq

/-- A file value: its original name and MIME type. -/
structure VFile where
  name : String
  mime : String
deriving DecidableEq

/-- A recorded audio blob: only its MIME type is relevant to the flow. -/
structure Blob where
  mime : String
deriving DecidableEq

/-- Options passed to the object-store upload call; fields left unset by the
caller are modelled as none. -/
structure UploadOptions where
  cacheControl : Option String
  upsert : Option Bool
deriving DecidableEq

/-- The committee row built by the orchestrator (source lines 35-43 of the
signup page). -/
structure CommitteeRecord where
  user_id : String
  type : String
  organization_name : Option String
  candidate_first_name : Option String
  candidate_middle_initial : Option String
  candidate_last_name : Option String
  candidate_suffix : Option String
deriving DecidableEq

/-- The voicemail row inserted after a successful upload. -/
structure VoicemailRecord where
  user_id : String
  file_path : String
  name : String
  is_default : Bool
deriving DecidableEq

/-- The wizard's accumulated form data, as read by the orchestrator. -/
structure WizardData where
  email : String
  password : String
  committeeType : String
  organizationName : String
  candidateFirstName : String
  candidateMiddleInitial : String
  candidateLastName : String
  candidateSuffix : String
  voicemailFile : Option VFile
deriving DecidableEq

/-- The wizard state: accumulated data plus the current step pointer. -/
structure WizardState where
  data : WizardData
  currentStep : Nat
deriving DecidableEq

/-- Modelled from the spec: the SignUpContext holding WizardState and its
resetData operation is not among the source files; per the spec, reset
restores initial empty data and step 1. -/
def initialWizardState : WizardState :=
  { data := { email := "", password := "", committeeType := ""
            , organizationName := "", candidateFirstName := ""
            , candidateMiddleInitial := "", candidateLastName := ""
            , candidateSuffix := "", voicemailFile := none }
  , currentStep := 1 }

/-- One backend call, recorded in the run's trace. -/
inductive Call where
  | signUpCall (email password : String)
  | insertCommitteeCall (rec : CommitteeRecord)
  | listBucketsCall
  | createBucketCall (bucket : String) (pub : Bool)
  | uploadCall (bucket key : String) (file : VFile) (opts : UploadOptions)
  | getPublicUrlCall (bucket key : String)
  | insertVoicemailCall (rec : VoicemailRecord)
deriving DecidableEq

/-- The backend collaborators consumed by the orchestrator.  Option String
results are error messages (none means success); listBuckets either fails or
returns the containers; getPublicUrl returns the public URL when one exists. -/
structure Backend where
  signUp : String → String → SignUpResult
  insertCommittee : CommitteeRecord → Option String
  listBuckets : Except String (List Bucket)
  createBucket : String → Bool → Option String
  upload : String → String → VFile → UploadOptions → Option String
  getPublicUrl : String → String → Option String
  insertVoicemail : VoicemailRecord → Option String

/-- The committee row construction (source lines 35-43): fields of the other
committee type are explicitly set to null. -/
def buildCommitteeData (uid : String) (d : WizardData) : CommitteeRecord :=
  { user_id := uid
  , type := d.committeeType
  , organization_name :=
      if d.committeeType = "organization" then some d.organizationName else none
  , candidate_first_name :=
      if d.committeeType = "candidate" then some d.candidateFirstName else none
  , candidate_middle_initial :=
      if d.committeeType = "candidate" then some d.candidateMiddleInitial else none
  , candidate_last_name :=
      if d.committeeType = "candidate" then some d.candidateLastName else none
  , candidate_suffix :=
      if d.committeeType = "candidate" then some d.candidateSuffix else none }

/-- Splitting a character list at every dot, as JavaScript split with the
one-character separator "." does on the string's characters; the result is
always non-empty and an empty input yields one empty segment. -/
def splitOnDot : List Char → List (List Char)
  | [] => [[]]
  | c :: cs =>
      match splitOnDot cs with
      | [] => [[]]
      | seg :: rest =>
          if c = '.' then [] :: seg :: rest else (c :: seg) :: rest

/-- JavaScript name.split(sep).pop() with sep the dot: the last dot-separated
segment of the string (the whole string when it has no dot, the empty string
when it ends in a dot).  Implemented on the character list so that it
computes by kernel reduction. -/
def lastSegment (s : String) : String :=
  String.mk ((splitOnDot s.data).getLastD [])

/-- The MIME-type-to-extension table used when the popped segment is falsy
(source lines 78-80). -/
def mimeExtFallback (mime : String) : String :=
  if mime = "audio/webm" then "webm"
  else if mime = "audio/mpeg" then "mp3"
  else if mime = "audio/wav" then "wav"
  else "audio"

/-- The extension computed at source lines 77-80: the last dot-segment of the
filename when that segment is a non-empty string (JavaScript truthiness of
pop's result), else the MIME-derived fallback. -/
def fileExtension (f : VFile) : String :=
  let e := lastSegment f.name
  if e = "" then mimeExtFallback f.mime else e

/-- Upload options passed by the orchestrator (source lines 89-92). -/
def orchestratorUploadOpts : UploadOptions :=
  { cacheControl := some "3600", upsert := some false }

/-- The storage key constructed by the orchestrator (source line 82). -/
def orchestratorKey (uid : String) (f : VFile) (now : Nat) : String :=
  uid ++ "/voicemail_" ++ toString now ++ "." ++ fileExtension f

/-- The voicemail row built after a successful upload (source lines 112-117). -/
def voicemailRecordOf (uid url : String) : VoicemailRecord :=
  { user_id := uid, file_path := url
  , name := "Default Voicemail", is_default := true }

/-- The upload part of the voicemail stage (source lines 76-124): construct
the key, upload, resolve the public URL, insert the voicemail record.
Returns the stage outcome and the trace of backend calls it made. -/
def voicemailUpload (be : Backend) (uid : String) (f : VFile) (now : Nat) :
    Except String Unit × List Call :=
  match be.upload "voicemails" (orchestratorKey uid f now) f orchestratorUploadOpts with
  | some e =>
      (Except.error e,
       [Call.uploadCall "voicemails" (orchestratorKey uid f now) f orchestratorUploadOpts])
  | none =>
      match be.getPublicUrl "voicemails" (orchestratorKey uid f now) with
      | none =>
          (Except.error "Failed to get public URL for the voicemail",
           [Call.uploadCall "voicemails" (orchestratorKey uid f now) f orchestratorUploadOpts,
            Call.getPublicUrlCall "voicemails" (orchestratorKey uid f now)])
      | some url =>
          if url = "" then
            (Except.error "Failed to get public URL for the voicemail",
             [Call.uploadCall "voicemails" (orchestratorKey uid f now) f orchestratorUploadOpts,
              Call.getPublicUrlCall "voicemails" (orchestratorKey uid f now)])
          else
            match be.insertVoicemail (voicemailRecordOf uid url) with
            | some e =>
                (Except.error e,
                 [Call.uploadCall "voicemails" (orchestratorKey uid f now) f orchestratorUploadOpts,
                  Call.getPublicUrlCall "voicemails" (orchestratorKey uid f now),
                  Call.insertVoicemailCall (voicemailRecordOf uid url)])
            | none =>
                (Except.ok (),
                 [Call.uploadCall "voicemails" (orchestratorKey uid f now) f orchestratorUploadOpts,
                  Call.getPublicUrlCall "voicemails" (orchestratorKey uid f now),
                  Call.insertVoicemailCall (voicemailRecordOf uid url)])

/-- The voicemail stage (source lines 50-124, the body of the inner try):
list buckets, create the voicemails bucket when absent, then upload. -/
def voicemailStage (be : Backend) (uid : String) (f : VFile) (now : Nat) :
    Except String Unit × List Call :=
  match be.listBuckets with
  | Except.error _ =>
      (Except.error "Failed to check storage buckets", [Call.listBucketsCall])
  | Except.ok buckets =>
      if buckets.any (fun b => b.name = "voicemails") then
        ((voicemailUpload be uid f now).1,
         Call.listBucketsCall :: (voicemailUpload be uid f now).2)
      else
        match be.createBucket "voicemails" true with
        | some _ =>
            (Except.error "Failed to create storage bucket",
             [Call.listBucketsCall, Call.createBucketCall "voicemails" true])
        | none =>
            ((voicemailUpload be uid f now).1,
             Call.listBucketsCall :: Call.createBucketCall "voicemails" true
               :: (voicemailUpload be uid f now).2)

/-- Aggregate outcome reported to the caller. -/
inductive Outcome where
  | Success
  | Warning (msg : String)
  | Failure (msg : String)
deriving DecidableEq

/-- Result of one completion run: the outcome, the wizard state after the run,
and whether the machine reached Completed (reset plus redirect). -/
structure CompleteResult where
  outcome : Outcome
  finalState : WizardState
  completed : Bool
deriving DecidableEq

/-- The orchestrator's completion flow (source lines 26-158): sign up, insert
the committee record, then the best-effort voicemail stage whose failure is
caught and surfaced as a warning; on the fatal paths the wizard state is left
untouched, otherwise it is reset. -/
def handleComplete (be : Backend) (s : WizardState) (now : Nat) :
    CompleteResult × List Call :=
  match (be.signUp s.data.email s.data.password).error with
  | some e =>
      (⟨Outcome.Failure e, s, false⟩,
       [Call.signUpCall s.data.email s.data.password])
  | none =>
      match (be.signUp s.data.email s.data.password).user with
      | none =>
          (⟨Outcome.Failure "Failed to create user account", s, false⟩,
           [Call.signUpCall s.data.email s.data.password])
      | some u =>
          match be.insertCommittee (buildCommitteeData u.id s.data) with
          | some e =>
              (⟨Outcome.Failure e, s, false⟩,
               [Call.signUpCall s.data.email s.data.password,
                Call.insertCommitteeCall (buildCommitteeData u.id s.data)])
          | none =>
              match s.data.voicemailFile with
              | none =>
                  (⟨Outcome.Success, initialWizardState, true⟩,
                   [Call.signUpCall s.data.email s.data.password,
                    Call.insertCommitteeCall (buildCommitteeData u.id s.data)])
              | some f =>
                  match (voicemailStage be u.id f now).1 with
                  | Except.error msg =>
                      (⟨Outcome.Warning msg, initialWizardState, true⟩,
                       [Call.signUpCall s.data.email s.data.password,
                        Call.insertCommitteeCall (buildCommitteeData u.id s.data)]
                         ++ (voicemailStage be u.id f now).2)
                  | Except.ok _ =>
                      (⟨Outcome.Success, initialWizardState, true⟩,
                       [Call.signUpCall s.data.email s.data.password,
                        Call.insertCommitteeCall (buildCommitteeData u.id s.data)]
                         ++ (voicemailStage be u.id f now).2)

/-- Whether the two fatal stages (identity creation, committee insert) both
succeed on this backend and snapshot. -/
def preStagesOk (be : Backend) (s : WizardState) : Bool :=
  match (be.signUp s.data.email s.data.password).error with
  | some _ => false
  | none =>
      match (be.signUp s.data.email s.data.password).user with
      | none => false
      | some u => (be.insertCommittee (buildCommitteeData u.id s.data)).isNone

/-- Calls belonging to the voicemail stage (object store plus voicemail-record
insert). -/
def isVoicemailCall : Call → Bool
  | Call.listBucketsCall => true
  | Call.createBucketCall _ _ => true
  | Call.uploadCall _ _ _ _ => true
  | Call.getPublicUrlCall _ _ => true
  | Call.insertVoicemailCall _ => true
  | _ => false

/-! The voicemail step component (VoicemailStep.tsx): file-selection
validation, mutual exclusivity of recording and selection, and the variant
submit flow that uploads before completing. -/

/-- The MIME allow-list of the file-selection handler (component line 40). -/
def acceptedTypes : List String := ["audio/mpeg", "audio/wav", "audio/x-aiff"]

/-- Local state of the voicemail step: the selected file and the recorded
blob. -/
structure StepState where
  uploadedFile : Option VFile
  recordedBlob : Option Blob
deriving DecidableEq

/-- handleFileSelected (component lines 38-52): reject a file whose MIME type
is outside the allow-list without touching state; otherwise select it and
clear any recording. -/
def handleFileSelected (st : StepState) (f : VFile) : StepState :=
  if acceptedTypes.contains f.mime then
    { uploadedFile := some f, recordedBlob := none }
  else
    st

/-- clearFile (component lines 54-56). -/
def clearFile (st : StepState) : StepState :=
  { st with uploadedFile := none }

/-- clearRecording as used by the component: drops the recorded blob. -/
def clearRecordingOf (st : StepState) : StepState :=
  { st with recordedBlob := none }

/-- Wrapping of the recorded blob at submit (component lines 75-77): a file
named voicemail.webm carrying the blob's MIME type. -/
def blobAsFile (b : Blob) : VFile :=
  { name := "voicemail.webm", mime := b.mime }

/-- The payload picked at submit (component line 75): the selected file when
present, else the wrapped recorded blob, else nothing. -/
def fileToUpload (st : StepState) : Option VFile :=
  match st.uploadedFile with
  | some f => some f
  | none => st.recordedBlob.map blobAsFile

/-- Upload options of the component's submit: none supplied explicitly. -/
def stepUploadOpts : UploadOptions :=
  { cacheControl := none, upsert := none }

/-- The object-store collaborators used by the component's submit; its
getPublicUrl always yields a URL string. -/
structure StepBackend where
  upload : String → String → VFile → Option String
  getPublicUrl : String → String → String

/-- Outcome of one submit of the voicemail step. -/
inductive SubmitOutcome where
  | missingVoicemail
  | uploadFailed (msg : String)
  | completedSignUp (savedPath : String)
deriving DecidableEq

/-- The storage key constructed by the component's submit (line 80): no
owner-identity scoping, extension popped from the payload's filename. -/
def stepKey (f : VFile) (now : Nat) : String :=
  "voicemail_" ++ toString now ++ "." ++ lastSegment f.name

/-- handleSubmit (component lines 58-112): require a payload, build the key
from the payload's filename, upload, resolve the public URL, store it in the
wizard data and invoke completion.  Returns the outcome and the trace of
object-store calls. -/
def handleSubmit (be : StepBackend) (st : StepState) (now : Nat) :
    SubmitOutcome × List Call :=
  match fileToUpload st with
  | none => (SubmitOutcome.missingVoicemail, [])
  | some f =>
      match be.upload "voicemails" (stepKey f now) f with
      | some e =>
          (SubmitOutcome.uploadFailed e,
           [Call.uploadCall "voicemails" (stepKey f now) f stepUploadOpts])
      | none =>
          (SubmitOutcome.completedSignUp (be.getPublicUrl "voicemails" (stepKey f now)),
           [Call.uploadCall "voicemails" (stepKey f now) f stepUploadOpts,
            Call.getPublicUrlCall "voicemails" (stepKey f now)])

/-- The files handed to the object store's upload call within a trace. -/
def uploadedFilesOf (tr : List Call) : List VFile :=
  tr.filterMap fun c =>
    match c with
    | Call.uploadCall _ _ g _ => some g
    | _ => none

/-! Concrete fixtures used by witnesses and counterexamples. -/

/-- An accepted mp3 upload payload. -/
def fGreet : VFile := { name := "greeting.mp3", mime := "audio/mpeg" }

/-- A payload whose filename has no dot, hence no extension. -/
def fNoExt : VFile := { name := "myvoicemail", mime := "audio/webm" }

/-- A payload whose filename ends in a dot: the popped segment is empty. -/
def fTrailingDot : VFile := { name := "clip.", mime := "audio/mpeg" }

/-- A payload with a MIME type outside the fallback table. -/
def fUnknownMime : VFile := { name := "clip.", mime := "audio/ogg" }

/-- A webm file, outside the component's accepted-types list. -/
def fWebm : VFile := { name := "clip.webm", mime := "audio/webm" }

/-- A recorded blob with an arbitrary MIME type. -/
def bOgg : Blob := { mime := "audio/ogg" }

/-- Candidate-committee wizard data at the final step. -/
def wdJane (vf : Option VFile) : WizardData :=
  { email := "a@b.com", password := "secret", committeeType := "candidate"
  , organizationName := "", candidateFirstName := "Jane"
  , candidateMiddleInitial := "", candidateLastName := "Doe"
  , candidateSuffix := "", voicemailFile := vf }

/-- Wizard state at step 3 holding that data. -/
def wsJane (vf : Option VFile) : WizardState :=
  { data := wdJane vf, currentStep := 3 }

/-- A backend on which every call succeeds and the bucket already exists. -/
def beAllOk : Backend :=
  { signUp := fun _ _ => { user := some { id := "u1" }, error := none }
  , insertCommittee := fun _ => none
  , listBuckets := Except.ok [{ name := "voicemails" }]
  , createBucket := fun _ _ => none
  , upload := fun _ _ _ _ => none
  , getPublicUrl := fun _ k => some ("https://cdn.example/" ++ k)
  , insertVoicemail := fun _ => none }

/-- Same backend but the container listing fails. -/
def beListFails : Backend :=
  { beAllOk with listBuckets := Except.error "network down" }

/-- Same backend but the committee insert fails. -/
def beInsertFails : Backend :=
  { beAllOk with insertCommittee := fun _ => some "committees insert rejected" }

/-- Same backend but identity creation fails. -/
def beSignUpFails : Backend :=
  { beAllOk with signUp := fun _ _ => { user := none, error := some "email already registered" } }

/-- A listing that does not contain the voicemails bucket. -/
def avatarsOnly : List Bucket := [{ name := "avatars" }]

/-- Same backend but the voicemails bucket is absent from the listing. -/
def beBucketAbsent : Backend :=
  { beAllOk with listBuckets := Except.ok avatarsOnly }

/-- Bucket absent and its creation fails. -/
def beBucketCreateFails : Backend :=
  { beBucketAbsent with createBucket := fun _ _ => some "permission denied" }

/-- Step-component backend on which the upload succeeds. -/
def beStepOk : StepBackend :=
  { upload := fun _ _ _ => none
  , getPublicUrl := fun _ k => "https://cdn.example/" ++ k }

/-- Step state holding only a recorded blob. -/
def stRecordedOgg : StepState :=
  { uploadedFile := none, recordedBlob := some bOgg }

/-- Step state holding a previous selection and a previous recording. -/
def stPrev : StepState :=
  { uploadedFile := some fGreet, recordedBlob := some bOgg }

/-! Claim theorems. -/

/-- C3: for every wizard snapshot with a supported committeeType, the
committee record the orchestrator builds carries values only in the fields of
that type: for an organization, the four candidate fields are explicitly null
and the organization name is populated; for a candidate, the organization
name is explicitly null and the four candidate fields are populated. -/
theorem committee_record_nulls_other_type_fields (uid : String) (d : WizardData) :
    (d.committeeType = "organization" →
      (buildCommitteeData uid d).organization_name = some d.organizationName ∧
      (buildCommitteeData uid d).candidate_first_name = none ∧
      (buildCommitteeData uid d).candidate_middle_initial = none ∧
      (buildCommitteeData uid d).candidate_last_name = none ∧
      (buildCommitteeData uid d).candidate_suffix = none) ∧
    (d.committeeType = "candidate" →
      (buildCommitteeData uid d).organization_name = none ∧
      (buildCommitteeData uid d).candidate_first_name = some d.candidateFirstName ∧
      (buildCommitteeData uid d).candidate_middle_initial = some d.candidateMiddleInitial ∧
      (buildCommitteeData uid d).candidate_last_name = some d.candidateLastName ∧
      (buildCommitteeData uid d).candidate_suffix = some d.candidateSuffix) := by
  constructor <;> intro h <;> simp [buildCommitteeData, h]

/-- Witness for C3 at a concrete candidate snapshot. -/
theorem committee_record_nulls_other_type_fields_witness :
    (wdJane none).committeeType = "candidate" ∧
    ((buildCommitteeData "u1" (wdJane none)).organization_name = none ∧
     (buildCommitteeData "u1" (wdJane none)).candidate_first_name = some (wdJane none).candidateFirstName ∧
     (buildCommitteeData "u1" (wdJane none)).candidate_middle_initial = some (wdJane none).candidateMiddleInitial ∧
     (buildCommitteeData "u1" (wdJane none)).candidate_last_name = some (wdJane none).candidateLastName ∧
     (buildCommitteeData "u1" (wdJane none)).candidate_suffix = some (wdJane none).candidateSuffix) :=
  ⟨rfl, (committee_record_nulls_other_type_fields "u1" (wdJane none)).2 rfl⟩

/-- C6 counterexample: a payload whose filename has no dot at all, with a
known MIME type, yields the whole filename as the extension, not the
MIME-derived one, and the constructed storage key ends with that filename. -/
theorem dotless_filename_skips_mime_fallback :
    fileExtension fNoExt = "myvoicemail" ∧
    fileExtension fNoExt ≠ "webm" ∧
    Call.uploadCall "voicemails" "u1/voicemail_9.myvoicemail" fNoExt orchestratorUploadOpts ∈
      (voicemailStage beAllOk "u1" fNoExt 9).2 :=
  ⟨by decide, by decide, by decide⟩

/-- C6 amended: the extension is the last dot-separated segment of the
filename whenever that segment is non-empty (for a dotless filename this is
the whole filename); only when it is empty (empty filename or filename
ending in a dot) does the MIME table apply, mapping audio/webm to webm,
audio/mpeg to mp3, audio/wav to wav and anything else to the generic
fallback audio; the derivation always yields a non-empty extension, so the
pipeline never fails solely because an extension is missing. -/
theorem fileExtension_last_segment_else_mime (f : VFile) :
    (lastSegment f.name ≠ "" → fileExtension f = lastSegment f.name) ∧
    (lastSegment f.name = "" → fileExtension f = mimeExtFallback f.mime) ∧
    mimeExtFallback "audio/webm" = "webm" ∧
    mimeExtFallback "audio/mpeg" = "mp3" ∧
    mimeExtFallback "audio/wav" = "wav" ∧
    (f.mime ≠ "audio/webm" → f.mime ≠ "audio/mpeg" → f.mime ≠ "audio/wav" →
      mimeExtFallback f.mime = "audio") ∧
    fileExtension f ≠ "" := by
  refine ⟨?_, ?_, by decide, by decide, by decide, ?_, ?_⟩
  · intro h; simp [fileExtension, h]
  · intro h; simp [fileExtension, h]
  · intro h1 h2 h3; simp [mimeExtFallback, h1, h2, h3]
  · by_cases h : lastSegment f.name = ""
    · have he : fileExtension f = mimeExtFallback f.mime := by simp [fileExtension, h]
      rw [he]
      unfold mimeExtFallback
      split
      · decide
      · split
        · decide
        · split
          · decide
          · decide
    · simp only [fileExtension]
      rw [if_neg h]
      exact h

/-- Witness for C6 amended at three concrete payloads: a dotless filename, a
filename ending in a dot, and an unknown MIME type. -/
theorem fileExtension_last_segment_else_mime_witness :
    (lastSegment fNoExt.name ≠ "" ∧ fileExtension fNoExt = lastSegment fNoExt.name) ∧
    (lastSegment fTrailingDot.name = "" ∧
      fileExtension fTrailingDot = mimeExtFallback fTrailingDot.mime) ∧
    (fUnknownMime.mime ≠ "audio/webm" ∧ fUnknownMime.mime ≠ "audio/mpeg" ∧
      fUnknownMime.mime ≠ "audio/wav" ∧ mimeExtFallback fUnknownMime.mime = "audio") :=
  ⟨⟨by decide, (fileExtension_last_segment_else_mime fNoExt).1 (by decide)⟩,
   ⟨by decide, (fileExtension_last_segment_else_mime fTrailingDot).2.1 (by decide)⟩,
   ⟨by decide, by decide, by decide,
    (fileExtension_last_segment_else_mime fUnknownMime).2.2.2.2.2.1
      (by decide) (by decide) (by decide)⟩⟩

/-- C8: selecting a file whose MIME type is outside the allow-list changes
nothing: the previous selection and any previous recording are untouched, and
no backend is involved (the handler takes none). -/
theorem invalid_file_type_rejected_state_untouched (st : StepState) (f : VFile)
    (h : acceptedTypes.contains f.mime = false) :
    handleFileSelected st f = st := by
  unfold handleFileSelected
  rw [if_neg (by rw [h]; decide)]

/-- Witness for C8: a webm file is rejected by this variant and both the
previous selection and the previous recording survive. -/
theorem invalid_file_type_rejected_state_untouched_witness :
    acceptedTypes.contains fWebm.mime = false ∧
    handleFileSelected stPrev fWebm = stPrev :=
  ⟨by decide, invalid_file_type_rejected_state_untouched stPrev fWebm (by decide)⟩

/-- C1: when identity creation and committee-record creation succeed, a
voicemail payload is present and the voicemail stage fails, the error is
caught at the orchestrator boundary: the outcome is the non-fatal warning
carrying the stage's message, the machine still reaches Completed, and the
wizard state is reset. -/
theorem voicemail_failure_is_nonfatal (be : Backend) (s : WizardState) (now : Nat)
    (u : User) (f : VFile) (msg : String)
    (hsu : (be.signUp s.data.email s.data.password).error = none)
    (hu : (be.signUp s.data.email s.data.password).user = some u)
    (hc : be.insertCommittee (buildCommitteeData u.id s.data) = none)
    (hf : s.data.voicemailFile = some f)
    (hv : (voicemailStage be u.id f now).1 = Except.error msg) :
    (handleComplete be s now).1 =
      { outcome := Outcome.Warning msg
      , finalState := initialWizardState, completed := true } := by
  simp only [handleComplete, hsu, hu, hc, hf, hv]

/-- Witness for C1: on a backend whose container listing fails, the flow
still completes with a warning and the wizard state is reset. -/
theorem voicemail_failure_is_nonfatal_witness :
    (beListFails.signUp (wsJane (some fGreet)).data.email (wsJane (some fGreet)).data.password).error = none ∧
    (beListFails.signUp (wsJane (some fGreet)).data.email (wsJane (some fGreet)).data.password).user = some { id := "u1" } ∧
    beListFails.insertCommittee (buildCommitteeData "u1" (wsJane (some fGreet)).data) = none ∧
    (wsJane (some fGreet)).data.voicemailFile = some fGreet ∧
    (voicemailStage beListFails "u1" fGreet 0).1 = Except.error "Failed to check storage buckets" ∧
    (handleComplete beListFails (wsJane (some fGreet)) 0).1 =
      { outcome := Outcome.Warning "Failed to check storage buckets"
      , finalState := initialWizardState, completed := true } :=
  ⟨rfl, rfl, rfl, rfl, rfl,
   voicemail_failure_is_nonfatal beListFails (wsJane (some fGreet)) 0
     { id := "u1" } fGreet "Failed to check storage buckets" rfl rfl rfl rfl rfl⟩

/-- C2: when identity creation or committee-record creation fails, the flow
aborts with a Failure outcome and the wizard state is left exactly as it was
before the run: same accumulated data, same current step, machine not
completed. -/
theorem fatal_failure_aborts_preserving_state (be : Backend) (s : WizardState) (now : Nat)
    (h : preStagesOk be s = false) :
    ∃ msg, (handleComplete be s now).1 =
      { outcome := Outcome.Failure msg, finalState := s, completed := false } := by
  unfold preStagesOk at h
  cases hsu : (be.signUp s.data.email s.data.password).error with
  | some e =>
      exact ⟨e, by simp only [handleComplete, hsu]⟩
  | none =>
      simp only [hsu] at h
      cases hu : (be.signUp s.data.email s.data.password).user with
      | none =>
          exact ⟨"Failed to create user account", by simp only [handleComplete, hsu, hu]⟩
      | some u =>
          simp only [hu] at h
          cases hc : be.insertCommittee (buildCommitteeData u.id s.data) with
          | none => simp [hc] at h
          | some e =>
              exact ⟨e, by simp only [handleComplete, hsu, hu, hc]⟩

/-- Witness for C2: a failing committee insert aborts the flow and leaves the
step-3 snapshot intact. -/
theorem fatal_failure_aborts_preserving_state_witness :
    preStagesOk beInsertFails (wsJane none) = false ∧
    ∃ msg, (handleComplete beInsertFails (wsJane none) 0).1 =
      { outcome := Outcome.Failure msg, finalState := wsJane none, completed := false } :=
  ⟨by decide,
   fatal_failure_aborts_preserving_state beInsertFails (wsJane none) 0 (by decide)⟩

/-- C4: voicemail work is gated.  Voicemail-stage backend calls appear in a
run's trace only when identity and committee creation both succeeded and a
payload is present; when either fatal stage fails, the run short-circuits
with a Failure before any voicemail work; when both succeed and no payload is
present, the run skips directly to Completed with outcome Success and makes
no voicemail call; and the first two calls of any trace are never voicemail
calls. -/
theorem voicemail_stage_gated (be : Backend) (s : WizardState) (now : Nat) :
    (((handleComplete be s now).2.filter isVoicemailCall) ≠ [] →
      preStagesOk be s = true ∧ (s.data.voicemailFile).isSome = true) ∧
    (preStagesOk be s = false →
      ((handleComplete be s now).2.filter isVoicemailCall) = [] ∧
      ∃ m, (handleComplete be s now).1.outcome = Outcome.Failure m) ∧
    (preStagesOk be s = true → s.data.voicemailFile = none →
      (handleComplete be s now).1 =
        { outcome := Outcome.Success, finalState := initialWizardState, completed := true } ∧
      ((handleComplete be s now).2.filter isVoicemailCall) = []) ∧
    (((handleComplete be s now).2.take 2).filter isVoicemailCall = []) := by
  cases hsu : (be.signUp s.data.email s.data.password).error with
  | some e =>
      have ht : (handleComplete be s now).2 =
          [Call.signUpCall s.data.email s.data.password] := by
        simp only [handleComplete, hsu]
      have hps : preStagesOk be s = false := by simp only [preStagesOk, hsu]
      have hout : (handleComplete be s now).1.outcome = Outcome.Failure e := by
        simp only [handleComplete, hsu]
      have hfil : ((handleComplete be s now).2.filter isVoicemailCall) = [] := by
        rw [ht]; rfl
      refine ⟨fun hne => absurd hfil hne, fun _ => ⟨hfil, e, hout⟩, ?_, ?_⟩
      · intro hptrue _
        rw [hps] at hptrue
        exact Bool.noConfusion hptrue
      · rw [ht]; rfl
  | none =>
      cases hu : (be.signUp s.data.email s.data.password).user with
      | none =>
          have ht : (handleComplete be s now).2 =
              [Call.signUpCall s.data.email s.data.password] := by
            simp only [handleComplete, hsu, hu]
          have hps : preStagesOk be s = false := by simp only [preStagesOk, hsu, hu]
          have hout : (handleComplete be s now).1.outcome =
              Outcome.Failure "Failed to create user account" := by
            simp only [handleComplete, hsu, hu]
          have hfil : ((handleComplete be s now).2.filter isVoicemailCall) = [] := by
            rw [ht]; rfl
          refine ⟨fun hne => absurd hfil hne, fun _ => ⟨hfil, _, hout⟩, ?_, ?_⟩
          · intro hptrue _
            rw [hps] at hptrue
            exact Bool.noConfusion hptrue
          · rw [ht]; rfl
      | some u =>
          cases hc : be.insertCommittee (buildCommitteeData u.id s.data) with
          | some e =>
              have ht : (handleComplete be s now).2 =
                  [Call.signUpCall s.data.email s.data.password,
                   Call.insertCommitteeCall (buildCommitteeData u.id s.data)] := by
                simp only [handleComplete, hsu, hu, hc]
              have hps : preStagesOk be s = false := by
                simp only [preStagesOk, hsu, hu, hc, Option.isNone]
              have hout : (handleComplete be s now).1.outcome = Outcome.Failure e := by
                simp only [handleComplete, hsu, hu, hc]
              have hfil : ((handleComplete be s now).2.filter isVoicemailCall) = [] := by
                rw [ht]; rfl
              refine ⟨fun hne => absurd hfil hne, fun _ => ⟨hfil, e, hout⟩, ?_, ?_⟩
              · intro hptrue _
                rw [hps] at hptrue
                exact Bool.noConfusion hptrue
              · rw [ht]; rfl
          | none =>
              have hps : preStagesOk be s = true := by
                simp only [preStagesOk, hsu, hu, hc, Option.isNone_none]
              cases hf : s.data.voicemailFile with
              | none =>
                  have ht : (handleComplete be s now).2 =
                      [Call.signUpCall s.data.email s.data.password,
                       Call.insertCommitteeCall (buildCommitteeData u.id s.data)] := by
                    simp only [handleComplete, hsu, hu, hc, hf]
                  have hres : (handleComplete be s now).1 =
                      { outcome := Outcome.Success
                      , finalState := initialWizardState, completed := true } := by
                    simp only [handleComplete, hsu, hu, hc, hf]
                  have hfil : ((handleComplete be s now).2.filter isVoicemailCall) = [] := by
                    rw [ht]; rfl
                  refine ⟨fun hne => absurd hfil hne, ?_, fun _ _ => ⟨hres, hfil⟩, ?_⟩
                  · intro hpfalse
                    rw [hps] at hpfalse
                    exact Bool.noConfusion hpfalse
                  · rw [ht]; rfl
              | some f =>
                  have ht : (handleComplete be s now).2 =
                      [Call.signUpCall s.data.email s.data.password,
                       Call.insertCommitteeCall (buildCommitteeData u.id s.data)]
                        ++ (voicemailStage be u.id f now).2 := by
                    cases hv : (voicemailStage be u.id f now).1 with
                    | error msg => simp only [handleComplete, hsu, hu, hc, hf, hv]
                    | ok v => simp only [handleComplete, hsu, hu, hc, hf, hv]
                  refine ⟨fun _ => ⟨hps, rfl⟩, ?_, ?_, ?_⟩
                  · intro hpfalse
                    rw [hps] at hpfalse
                    exact Bool.noConfusion hpfalse
                  · intro _ hnone
                    exact Option.noConfusion hnone
                  · rw [ht]
                    rfl

/-- Witness for C4 on three concrete runs: all stages succeed with a payload,
identity creation fails, and all stages succeed without a payload. -/
theorem voicemail_stage_gated_witness :
    (((handleComplete beAllOk (wsJane (some fGreet)) 7).2.filter isVoicemailCall) ≠ [] ∧
      (preStagesOk beAllOk (wsJane (some fGreet)) = true ∧
        ((wsJane (some fGreet)).data.voicemailFile).isSome = true)) ∧
    (preStagesOk beSignUpFails (wsJane none) = false ∧
      (((handleComplete beSignUpFails (wsJane none) 0).2.filter isVoicemailCall) = [] ∧
        ∃ m, (handleComplete beSignUpFails (wsJane none) 0).1.outcome = Outcome.Failure m)) ∧
    (preStagesOk beAllOk (wsJane none) = true ∧ (wsJane none).data.voicemailFile = none ∧
      ((handleComplete beAllOk (wsJane none) 0).1 =
        { outcome := Outcome.Success, finalState := initialWizardState, completed := true } ∧
        ((handleComplete beAllOk (wsJane none) 0).2.filter isVoicemailCall) = [])) :=
  ⟨⟨by decide, (voicemail_stage_gated beAllOk (wsJane (some fGreet)) 7).1 (by decide)⟩,
   ⟨by decide, (voicemail_stage_gated beSignUpFails (wsJane none) 0).2.1 (by decide)⟩,
   ⟨by decide, rfl,
    (voicemail_stage_gated beAllOk (wsJane none) 0).2.2.1 (by decide) rfl⟩⟩

/-- Helper: every call recorded by the upload part of the stage is the upload
itself, the public-URL resolution, or the voicemail-record insert, with the
constructed key and the orchestrator's options. -/
theorem mem_voicemailUpload_shape (be : Backend) (uid : String) (f : VFile) (now : Nat)
    (c : Call) (h : c ∈ (voicemailUpload be uid f now).2) :
    c = Call.uploadCall "voicemails" (orchestratorKey uid f now) f orchestratorUploadOpts ∨
    c = Call.getPublicUrlCall "voicemails" (orchestratorKey uid f now) ∨
    ∃ vr, c = Call.insertVoicemailCall vr := by
  unfold voicemailUpload at h
  split at h
  · simp only [List.mem_singleton] at h
    exact Or.inl h
  · split at h
    · simp only [List.mem_cons, List.not_mem_nil, or_false] at h
      rcases h with h | h
      · exact Or.inl h
      · exact Or.inr (Or.inl h)
    · split at h
      · simp only [List.mem_cons, List.not_mem_nil, or_false] at h
        rcases h with h | h
        · exact Or.inl h
        · exact Or.inr (Or.inl h)
      · split at h
        · simp only [List.mem_cons, List.not_mem_nil, or_false] at h
          rcases h with h | h | h
          · exact Or.inl h
          · exact Or.inr (Or.inl h)
          · exact Or.inr (Or.inr ⟨_, h⟩)
        · simp only [List.mem_cons, List.not_mem_nil, or_false] at h
          rcases h with h | h | h
          · exact Or.inl h
          · exact Or.inr (Or.inl h)
          · exact Or.inr (Or.inr ⟨_, h⟩)

/-- Helper: every call recorded by the voicemail stage is the bucket listing,
the bucket creation, or one of the upload part's calls. -/
theorem mem_voicemailStage_shape (be : Backend) (uid : String) (f : VFile) (now : Nat)
    (c : Call) (h : c ∈ (voicemailStage be uid f now).2) :
    c = Call.listBucketsCall ∨
    c = Call.createBucketCall "voicemails" true ∨
    c ∈ (voicemailUpload be uid f now).2 := by
  unfold voicemailStage at h
  split at h
  · simp only [List.mem_singleton] at h
    exact Or.inl h
  · split at h
    · simp only [List.mem_cons] at h
      rcases h with h | h
      · exact Or.inl h
      · exact Or.inr (Or.inr h)
    · split at h
      · simp only [List.mem_cons, List.not_mem_nil, or_false] at h
        rcases h with h | h
        · exact Or.inl h
        · exact Or.inr (Or.inl h)
      · simp only [List.mem_cons] at h
        rcases h with h | h | h
        · exact Or.inl h
        · exact Or.inr (Or.inl h)
        · exact Or.inr (Or.inr h)

/-- Helper: a failing container listing settles the whole stage. -/
theorem voicemailStage_eq_of_listFails (be : Backend) (uid : String) (f : VFile) (now : Nat)
    (e : String) (he : be.listBuckets = Except.error e) :
    voicemailStage be uid f now =
      (Except.error "Failed to check storage buckets", [Call.listBucketsCall]) := by
  simp only [voicemailStage, he]

/-- Helper: with the bucket present in the listing, the stage is the listing
followed by the upload part. -/
theorem voicemailStage_eq_of_present (be : Backend) (uid : String) (f : VFile) (now : Nat)
    (bs : List Bucket) (hbs : be.listBuckets = Except.ok bs)
    (hany : bs.any (fun b => b.name = "voicemails") = true) :
    voicemailStage be uid f now =
      ((voicemailUpload be uid f now).1,
       Call.listBucketsCall :: (voicemailUpload be uid f now).2) := by
  simp only [voicemailStage, hbs, hany, if_true]

/-- Helper: with the bucket absent and its creation succeeding, the stage is
the listing, the creation, then the upload part. -/
theorem voicemailStage_eq_of_absent_createOk (be : Backend) (uid : String) (f : VFile) (now : Nat)
    (bs : List Bucket) (hbs : be.listBuckets = Except.ok bs)
    (hany : bs.any (fun b => b.name = "voicemails") = false)
    (hcr : be.createBucket "voicemails" true = none) :
    voicemailStage be uid f now =
      ((voicemailUpload be uid f now).1,
       Call.listBucketsCall :: Call.createBucketCall "voicemails" true
         :: (voicemailUpload be uid f now).2) := by
  simp only [voicemailStage, hbs, hany, hcr, Bool.false_eq_true, if_false]

/-- Helper: with the bucket absent and its creation failing, the stage fails
after the listing and the creation attempt. -/
theorem voicemailStage_eq_of_absent_createFails (be : Backend) (uid : String) (f : VFile) (now : Nat)
    (bs : List Bucket) (hbs : be.listBuckets = Except.ok bs)
    (hany : bs.any (fun b => b.name = "voicemails") = false)
    (e : String) (hcr : be.createBucket "voicemails" true = some e) :
    voicemailStage be uid f now =
      (Except.error "Failed to create storage bucket",
       [Call.listBucketsCall, Call.createBucketCall "voicemails" true]) := by
  simp only [voicemailStage, hbs, hany, hcr, Bool.false_eq_true, if_false]

/-- C7: the voicemail stage always lists the storage containers first; a
listing failure fails the stage with the check error; the voicemails bucket
is created, publicly readable, exactly when it is absent from the listing; a
creation failure fails the stage with the creation error; and the only bucket
ever created is voicemails with public readability.  (C1 shows the
orchestrator treats these stage errors as non-fatal.) -/
theorem bucket_provisioned_exactly_when_absent (be : Backend) (uid : String)
    (f : VFile) (now : Nat) :
    ((voicemailStage be uid f now).2.head? = some Call.listBucketsCall) ∧
    (∀ e, be.listBuckets = Except.error e →
      (voicemailStage be uid f now).1 = Except.error "Failed to check storage buckets") ∧
    (∀ bs, be.listBuckets = Except.ok bs →
      (Call.createBucketCall "voicemails" true ∈ (voicemailStage be uid f now).2 ↔
        bs.any (fun b => b.name = "voicemails") = false)) ∧
    (∀ bs, be.listBuckets = Except.ok bs →
      bs.any (fun b => b.name = "voicemails") = false →
      ∀ e, be.createBucket "voicemails" true = some e →
        (voicemailStage be uid f now).1 = Except.error "Failed to create storage bucket") ∧
    (∀ bn p, Call.createBucketCall bn p ∈ (voicemailStage be uid f now).2 →
      bn = "voicemails" ∧ p = true) := by
  refine ⟨?_, ?_, ?_, ?_, ?_⟩
  · cases hlb : be.listBuckets with
    | error e => rw [voicemailStage_eq_of_listFails be uid f now e hlb]; rfl
    | ok bs =>
        cases hany : bs.any (fun b => b.name = "voicemails") with
        | true => rw [voicemailStage_eq_of_present be uid f now bs hlb hany]; rfl
        | false =>
            cases hcr : be.createBucket "voicemails" true with
            | none =>
                rw [voicemailStage_eq_of_absent_createOk be uid f now bs hlb hany hcr]; rfl
            | some e =>
                rw [voicemailStage_eq_of_absent_createFails be uid f now bs hlb hany e hcr]; rfl
  · intro e he
    rw [voicemailStage_eq_of_listFails be uid f now e he]
  · intro bs hbs
    cases hany : bs.any (fun b => b.name = "voicemails") with
    | true =>
        rw [voicemailStage_eq_of_present be uid f now bs hbs hany]
        constructor
        · intro hmem
          exfalso
          simp only [List.mem_cons] at hmem
          rcases hmem with hmem | hmem
          · exact Call.noConfusion hmem
          · rcases mem_voicemailUpload_shape be uid f now _ hmem with h | h | ⟨vr, h⟩ <;>
              exact Call.noConfusion h
        · intro hfalse
          exact Bool.noConfusion hfalse
    | false =>
        cases hcr : be.createBucket "voicemails" true with
        | none =>
            rw [voicemailStage_eq_of_absent_createOk be uid f now bs hbs hany hcr]
            exact ⟨fun _ => rfl,
              fun _ => List.mem_cons.mpr (Or.inr (List.mem_cons_self _ _))⟩
        | some e =>
            rw [voicemailStage_eq_of_absent_createFails be uid f now bs hbs hany e hcr]
            exact ⟨fun _ => rfl,
              fun _ => List.mem_cons.mpr (Or.inr (List.mem_cons_self _ _))⟩
  · intro bs hbs hany e hcr
    rw [voicemailStage_eq_of_absent_createFails be uid f now bs hbs hany e hcr]
  · intro bn p hmem
    rcases mem_voicemailStage_shape be uid f now _ hmem with h | h | h
    · exact Call.noConfusion h
    · injection h with h1 h2
      exact ⟨h1, h2⟩
    · rcases mem_voicemailUpload_shape be uid f now _ h with h | h | ⟨vr, h⟩ <;>
        exact Call.noConfusion h

/-- Witness for C7 on two concrete backends: one whose listing already shows
the bucket (no creation), one where the bucket is absent and creation fails,
plus a backend with a failing listing. -/
theorem bucket_provisioned_exactly_when_absent_witness :
    beListFails.listBuckets = Except.error "network down" ∧
    (voicemailStage beListFails "u1" fGreet 0).1 = Except.error "Failed to check storage buckets" ∧
    beBucketAbsent.listBuckets = Except.ok avatarsOnly ∧
    (Call.createBucketCall "voicemails" true ∈ (voicemailStage beBucketAbsent "u1" fGreet 3).2 ↔
      (avatarsOnly.any (fun b => b.name = "voicemails")) = false) ∧
    (avatarsOnly.any (fun b => b.name = "voicemails")) = false ∧
    beBucketCreateFails.createBucket "voicemails" true = some "permission denied" ∧
    (voicemailStage beBucketCreateFails "u1" fGreet 3).1 = Except.error "Failed to create storage bucket" :=
  ⟨rfl,
   (bucket_provisioned_exactly_when_absent beListFails "u1" fGreet 0).2.1 "network down" rfl,
   rfl,
   (bucket_provisioned_exactly_when_absent beBucketAbsent "u1" fGreet 3).2.2.1 avatarsOnly rfl,
   by decide,
   rfl,
   (bucket_provisioned_exactly_when_absent beBucketCreateFails "u1" fGreet 3).2.2.2.1
     avatarsOnly rfl (by decide) "permission denied" rfl⟩

/-- C5 counterexample: in the voicemail-step variant, a submission whose
payload is the recorded blob uploads under the key voicemail_42.webm, which
contains no slash and hence is not scoped under any owner identity, and the
upload call carries no explicit overwrite flag. -/
theorem upload_key_owner_scoping_fails_in_step_variant :
    (handleSubmit beStepOk stRecordedOgg 42).2.head? =
      some (Call.uploadCall "voicemails" "voicemail_42.webm" (blobAsFile bOgg) stepUploadOpts) ∧
    '/' ∉ "voicemail_42.webm".data ∧
    stepUploadOpts.upsert = none :=
  ⟨by decide, by decide, rfl⟩

/-- C5 amended: in the orchestrator's completion pipeline, every upload call
goes to the voicemails bucket under the key
ownerId/voicemail_{timestamp}.{extension} for the created identity and the
present payload, with upsert explicitly false (overwrite disabled) and
cacheControl 3600. -/
theorem orchestrator_upload_key_owner_scoped (be : Backend) (s : WizardState) (now : Nat)
    (bu k : String) (g : VFile) (o : UploadOptions)
    (hmem : Call.uploadCall bu k g o ∈ (handleComplete be s now).2) :
    ∃ u, (be.signUp s.data.email s.data.password).user = some u ∧
      bu = "voicemails" ∧ s.data.voicemailFile = some g ∧
      k = u.id ++ "/voicemail_" ++ toString now ++ "." ++ fileExtension g ∧
      o.upsert = some false ∧ o.cacheControl = some "3600" := by
  cases hsu : (be.signUp s.data.email s.data.password).error with
  | some e =>
      have ht : (handleComplete be s now).2 =
          [Call.signUpCall s.data.email s.data.password] := by
        simp only [handleComplete, hsu]
      rw [ht] at hmem
      simp at hmem
  | none =>
      cases hu : (be.signUp s.data.email s.data.password).user with
      | none =>
          have ht : (handleComplete be s now).2 =
              [Call.signUpCall s.data.email s.data.password] := by
            simp only [handleComplete, hsu, hu]
          rw [ht] at hmem
          simp at hmem
      | some u =>
          cases hc : be.insertCommittee (buildCommitteeData u.id s.data) with
          | some e =>
              have ht : (handleComplete be s now).2 =
                  [Call.signUpCall s.data.email s.data.password,
                   Call.insertCommitteeCall (buildCommitteeData u.id s.data)] := by
                simp only [handleComplete, hsu, hu, hc]
              rw [ht] at hmem
              simp at hmem
          | none =>
              cases hf : s.data.voicemailFile with
              | none =>
                  have ht : (handleComplete be s now).2 =
                      [Call.signUpCall s.data.email s.data.password,
                       Call.insertCommitteeCall (buildCommitteeData u.id s.data)] := by
                    simp only [handleComplete, hsu, hu, hc, hf]
                  rw [ht] at hmem
                  simp at hmem
              | some f =>
                  have ht : (handleComplete be s now).2 =
                      [Call.signUpCall s.data.email s.data.password,
                       Call.insertCommitteeCall (buildCommitteeData u.id s.data)]
                        ++ (voicemailStage be u.id f now).2 := by
                    cases hv : (voicemailStage be u.id f now).1 with
                    | error msg => simp only [handleComplete, hsu, hu, hc, hf, hv]
                    | ok v => simp only [handleComplete, hsu, hu, hc, hf, hv]
                  rw [ht] at hmem
                  simp only [List.mem_append, List.mem_cons, List.not_mem_nil,
                    or_false] at hmem
                  rcases hmem with (hmem | hmem) | hmem
                  · exact Call.noConfusion hmem
                  · exact Call.noConfusion hmem
                  · rcases mem_voicemailStage_shape be u.id f now _ hmem with h | h | h
                    · exact Call.noConfusion h
                    · exact Call.noConfusion h
                    · rcases mem_voicemailUpload_shape be u.id f now _ h
                        with h | h | ⟨vr, h⟩
                      · injection h with h1 h2 h3 h4
                        refine ⟨u, rfl, h1, ?_, ?_, ?_, ?_⟩
                        · rw [h3]
                        · rw [h2, h3]
                          rfl
                        · rw [h4]
                          rfl
                        · rw [h4]
                          rfl
                      · exact Call.noConfusion h
                      · exact Call.noConfusion h

/-- Witness for C5 amended: the successful end-to-end run uploads exactly
under u1/voicemail_7.mp3 with overwrite disabled. -/
theorem orchestrator_upload_key_owner_scoped_witness :
    Call.uploadCall "voicemails" "u1/voicemail_7.mp3" fGreet orchestratorUploadOpts ∈
      (handleComplete beAllOk (wsJane (some fGreet)) 7).2 ∧
    ∃ u, (beAllOk.signUp (wsJane (some fGreet)).data.email
            (wsJane (some fGreet)).data.password).user = some u ∧
      "voicemails" = "voicemails" ∧
      (wsJane (some fGreet)).data.voicemailFile = some fGreet ∧
      "u1/voicemail_7.mp3" = u.id ++ "/voicemail_" ++ toString 7 ++ "." ++ fileExtension fGreet ∧
      orchestratorUploadOpts.upsert = some false ∧
      orchestratorUploadOpts.cacheControl = some "3600" :=
  ⟨by decide,
   orchestrator_upload_key_owner_scoped beAllOk (wsJane (some fGreet)) 7
     "voicemails" "u1/voicemail_7.mp3" fGreet orchestratorUploadOpts (by decide)⟩

/-- C9: mutual exclusivity of the voicemail payload: accepting a valid file
selection installs the file and clears any pending recording; one submit
hands the object store exactly the files of fileToUpload st, so at most one
payload; and that payload is the selected file when present, else the
wrapped recorded blob, never both. -/
theorem voicemail_payload_exclusive (be : StepBackend) (st : StepState)
    (f : VFile) (now : Nat) :
    (acceptedTypes.contains f.mime = true →
      handleFileSelected st f = { uploadedFile := some f, recordedBlob := none }) ∧
    uploadedFilesOf (handleSubmit be st now).2 = (fileToUpload st).toList ∧
    (∀ g, fileToUpload st = some g →
      st.uploadedFile = some g ∨
        (st.uploadedFile = none ∧ ∃ b, st.recordedBlob = some b ∧ g = blobAsFile b)) := by
  refine ⟨?_, ?_, ?_⟩
  · intro h
    unfold handleFileSelected
    rw [if_pos h]
  · cases hft : fileToUpload st with
    | none =>
        simp only [handleSubmit, hft]
        rfl
    | some g =>
        cases hub : be.upload "voicemails" (stepKey g now) g with
        | some e =>
            simp only [handleSubmit, hft, hub]
            rfl
        | none =>
            simp only [handleSubmit, hft, hub]
            rfl
  · intro g hg
    unfold fileToUpload at hg
    cases huf : st.uploadedFile with
    | some f2 =>
        simp only [huf] at hg
        exact Or.inl hg
    | none =>
        simp only [huf] at hg
        cases hrb : st.recordedBlob with
        | none =>
            rw [hrb] at hg
            simp at hg
        | some b =>
            rw [hrb] at hg
            simp only [Option.map] at hg
            injection hg with hgi
            exact Or.inr ⟨rfl, b, rfl, hgi.symm⟩

/-- Witness for C9: selecting an mp3 over a pending recording clears the
recording, and a recorded-blob-only submit uploads exactly the wrapped blob. -/
theorem voicemail_payload_exclusive_witness :
    acceptedTypes.contains fGreet.mime = true ∧
    handleFileSelected stRecordedOgg fGreet =
      { uploadedFile := some fGreet, recordedBlob := none } ∧
    uploadedFilesOf (handleSubmit beStepOk stRecordedOgg 5).2 =
      (fileToUpload stRecordedOgg).toList ∧
    fileToUpload stRecordedOgg = some (blobAsFile bOgg) ∧
    (stRecordedOgg.uploadedFile = some (blobAsFile bOgg) ∨
      (stRecordedOgg.uploadedFile = none ∧
        ∃ b, stRecordedOgg.recordedBlob = some b ∧ blobAsFile bOgg = blobAsFile b)) :=
  ⟨by decide,
   (voicemail_payload_exclusive beStepOk stRecordedOgg fGreet 5).1 (by decide),
   (voicemail_payload_exclusive beStepOk stRecordedOgg fGreet 5).2.1,
   rfl,
   (voicemail_payload_exclusive beStepOk stRecordedOgg fGreet 5).2.2 (blobAsFile bOgg) rfl⟩

/-- C10: in the step variant, a submission whose payload is a recorded blob
(no file selected) wraps the blob as a file named voicemail.webm carrying the
blob's MIME type, and the submit's first object-store call uploads it under
the key voicemail_{timestamp}.webm: the extension is webm regardless of the
recording's MIME type and the key carries no owner-identity prefix. -/
theorem recorded_blob_uploads_fixed_webm_key (be : StepBackend) (st : StepState)
    (b : Blob) (now : Nat)
    (h1 : st.uploadedFile = none) (h2 : st.recordedBlob = some b) :
    blobAsFile b = { name := "voicemail.webm", mime := b.mime } ∧
    stepKey (blobAsFile b) now = "voicemail_" ++ toString now ++ "." ++ "webm" ∧
    (handleSubmit be st now).2.head? =
      some (Call.uploadCall "voicemails" (stepKey (blobAsFile b) now)
        (blobAsFile b) stepUploadOpts) := by
  have hft : fileToUpload st = some (blobAsFile b) := by
    simp [fileToUpload, h1, h2]
  refine ⟨rfl, rfl, ?_⟩
  cases hub : be.upload "voicemails" (stepKey (blobAsFile b) now) (blobAsFile b) with
  | some e =>
      simp only [handleSubmit, hft, hub]
      rfl
  | none =>
      simp only [handleSubmit, hft, hub]
      rfl

/-- Witness for C10 at a concrete recorded blob of MIME audio/ogg and
timestamp 42. -/
theorem recorded_blob_uploads_fixed_webm_key_witness :
    stRecordedOgg.uploadedFile = none ∧
    stRecordedOgg.recordedBlob = some bOgg ∧
    (blobAsFile bOgg = { name := "voicemail.webm", mime := bOgg.mime } ∧
     stepKey (blobAsFile bOgg) 42 = "voicemail_" ++ toString 42 ++ "." ++ "webm" ∧
     (handleSubmit beStepOk stRecordedOgg 42).2.head? =
       some (Call.uploadCall "voicemails" (stepKey (blobAsFile bOgg) 42)
         (blobAsFile bOgg) stepUploadOpts)) :=
  ⟨rfl, rfl, recorded_blob_uploads_fixed_webm_key beStepOk stRecordedOgg bOgg 42 rfl rfl⟩
